import Mathlib

/-!
Verification of the Out_Reach_Agent notification-dispatch core against its
specification.  The Python sources under `sendgrid_mailtool/` are shallowly
embedded as executable Lean definitions:

* `webhook_receiver/utils.py`    — phone formatting/validation, payload validation;
* `webhook_receiver/database.py` — the idempotent mark-sent mutations, modelled
  as explicit state passing over a keyed record store;
* `src/sendgrid_mailtool/tools/sendgrid_email_tool.py` and
  `twilio_sms_tool.py`           — the Channel Senders, modelled as total
  functions parameterised by the provider's behaviour (respond / raise), since
  both tools catch every provider exception and return a status string;
* `webhook_receiver/main.py`     — the webhook handler and the orchestration
  run `process_notifications_for_application`, modelled as a function from the
  fetched application view and the two crew-invocation outcomes to the run's
  observable effects (channel attempts and mark-sent invocations).

Python `or` / truthiness is modelled explicitly (`pyOr`, `pyTruthyS`, …);
optional string environment variables and optional record fields are `Option
String`.  String scanning is done on `String.data` character lists so that all
definitions are executable and decidable on concrete inputs.
-/

set_option maxRecDepth 10000

namespace OutReach

/-! ## Python value and truthiness model -/

/-- A primitive JSON/Python value appearing in a webhook `record`.  Webhook
identifier fields are integers, strings or `null`; this is the domain the
handler's truthiness checks range over. -/
inductive PyVal where
  | int (n : Int)
  | str (s : String)
  | null
  deriving DecidableEq, Repr

/-- Python truthiness of a primitive value: `0`, `""` and `None` are falsy. -/
def pyTruthy : PyVal → Bool
  | .int n => n != 0
  | .str s => s != ""
  | .null => false

/-- Python truthiness of an optional string (an `os.getenv` result or an
optional record field): `None` and `""` are falsy. -/
def pyTruthyS : Option String → Bool
  | some s => s != ""
  | none => false

/-- Python `a or b` on optional strings: the first operand when truthy,
otherwise the second. -/
def pyOr : Option String → Option String → Option String
  | some s, b => if s = "" then b else some s
  | none, b => b

/-- Python `str.strip()` restricted to its whitespace behaviour: drop
whitespace characters from both ends (character-list level, so that it is
kernel-computable on concrete inputs). -/
def pyStrip (s : String) : String :=
  String.mk (((s.data.dropWhile Char.isWhitespace).reverse.dropWhile
    Char.isWhitespace).reverse)

/-- Model of `s.startswith('+')` (character-list level). -/
def startsWithPlus (s : String) : Bool :=
  match s.data with
  | c :: _ => c == '+'
  | [] => false

/-- Model of `s.startswith(p)` for a general prefix (character-list level). -/
def strStartsWith (s p : String) : Bool :=
  s.data.take p.data.length == p.data

/-! ## `webhook_receiver/utils.py` -/

/-- Model of `re.sub(r'[^\d+]', '', phone)`: keep only decimal digits and `+`.
(Python `\d` on `str` matches Unicode decimal digits; the model uses ASCII
digits, which is exact on the ASCII phone strings this system handles.) -/
def keepDigitsPlus (s : String) : String :=
  String.mk (s.data.filter (fun c => c.isDigit || c == '+'))

/-- Embedding of `format_phone_number(phone, default_country_code="+1")` from
`webhook_receiver/utils.py` (lines 79–101).  Returns `none` for the Python
`return None` on a falsy input, otherwise the cleaned number, with the default
country code prepended when no leading `+` survives the cleaning.  The Python
default argument `"+1"` is passed explicitly at the single call site. -/
def format_phone_number (phone : String) (default_country_code : String) :
    Option String :=
  if phone = "" then none
  else
    let p := keepDigitsPlus phone
    if startsWithPlus p then some p
    else some (default_country_code ++ p)

/-- Embedding of `validate_phone_number(phone)` from `webhook_receiver/utils.py`
(lines 104–119): `re.match(r'^\+\d{10,15}$', phone)` after a falsy check.
Python's `$` matches at the end of the string *or just before a single
trailing newline*, so the embedding strips one trailing `'\n'` (when present)
before checking for `+` followed by 10–15 digits. -/
def validate_phone_number (phone : String) : Bool :=
  match phone.data with
  | [] => false
  | c :: rest =>
    if c = '+' then
      let core := if rest.getLast? = some '\n' then rest.dropLast else rest
      decide (10 ≤ core.length) && decide (core.length ≤ 15) &&
        core.all Char.isDigit
    else false

/-! ## Webhook payload and `validate_webhook_payload` -/

/-- An inbound webhook payload, modelled structurally: the three top-level
fields the code reads.  `type`/`table` are `Option String` (absent or a JSON
string — Supabase change events carry strings there); `record` is absent or a
JSON object with primitive values. -/
structure Payload where
  type_ : Option String
  table : Option String
  record : Option (List (String × PyVal))
  deriving Repr

/-- Embedding of `validate_webhook_payload(payload)` from `webhook_receiver/utils.py`
(lines 122–150): the three required top-level fields must be present and the
record must contain the `cand_id` and `requirement_id` keys (presence only —
values are not inspected here). -/
def validate_webhook_payload (p : Payload) : Bool :=
  p.type_.isSome && p.table.isSome && p.record.isSome &&
    ((p.record.getD []).lookup "cand_id").isSome &&
    ((p.record.getD []).lookup "requirement_id").isSome

/-! ## `webhook_receiver/database.py` — mark-sent mutations

The store is modelled as a map from `match_id` keys to rows.  Each supabase
`update(...).eq('match_id', id)` rewrites the matching row (when present) and
— absent a client exception, which the code turns into a `False` return and
which is outside the deterministic model — returns successfully. -/

/-- One row of the tracking table: the per-channel sent flag and timestamp
columns touched by the mark operations. -/
structure MatchRecord where
  email_sent : Bool
  email_sent_at : Option Nat
  sms_sent : Bool
  sms_sent_at : Option Nat
  deriving DecidableEq, Repr

/-- The keyed record store. -/
def MatchDb := Nat → Option MatchRecord

/-- Embedding of `mark_email_sent(match_id)` from `webhook_receiver/database.py`
(lines 89–115): set `email_sent := true` and `email_sent_at := now` on the row
with the given `match_id`, return `True`. -/
def mark_email_sent (db : MatchDb) (match_id : Nat) (now : Nat) :
    MatchDb × Bool :=
  (fun j => if j = match_id then
      (db j).map (fun r => { r with email_sent := true,
                                    email_sent_at := some now })
    else db j,
   true)

/-- Embedding of `mark_sms_sent(match_id)` from `webhook_receiver/database.py`
(lines 118–144): set `sms_sent := true` and `sms_sent_at := now` on the row
with the given `match_id`, return `True`. -/
def mark_sms_sent (db : MatchDb) (match_id : Nat) (now : Nat) :
    MatchDb × Bool :=
  (fun j => if j = match_id then
      (db j).map (fun r => { r with sms_sent := true,
                                    sms_sent_at := some now })
    else db j,
   true)

/-- The sent-state view of a row: the two flags and whether each timestamp is
set.  Two stores are *mark-state equivalent* when they agree on this view at
every key — the timestamps' concrete values (refreshed on re-marking) are
abstracted, matching the spec's "idempotent, timestamped" reading. -/
def sentView (o : Option MatchRecord) :
    Option (Bool × Bool × Bool × Bool) :=
  o.map (fun r => (r.email_sent, r.email_sent_at.isSome,
                   r.sms_sent, r.sms_sent_at.isSome))

/-! ## Channel Senders (`tools/sendgrid_email_tool.py`, `tools/twilio_sms_tool.py`)

Both `_run` methods wrap their whole body in `try/except Exception` and return
a status string on every path, so they are total functions.  The provider
client call (the only operation that can raise) is a parameter; the result
also records whether that provider call was reached. -/

/-- Result of one Channel Sender `_run`: the returned status string, and
whether the provider API call (`sg.client.mail.send.post` /
`client.messages.create`) was actually invoked. -/
structure ToolRunResult where
  output : String
  providerInvoked : Bool
  deriving DecidableEq, Repr

/-- SendGrid-related environment variables. -/
structure SendGridEnv where
  api_key : Option String
  from_email_env : Option String
  reply_to : Option String
  deriving Repr

/-- Behaviour of the SendGrid API call: an HTTP response, or an exception. -/
inductive SendGridProvider where
  | respond (statusCode : Nat) (body headers : String)
  | raises (etype emsg : String)
  deriving Repr

/-- Embedding of `SendGridEmailTool._run` from `tools/sendgrid_email_tool.py`
(lines 35–121): input guards, environment checks, then the provider call;
every exception from the provider is caught and rendered as the `❌` error
string (the tool never raises). -/
def SendGridEmailTool_run (to_email subject html_content : String)
    (from_email : Option String) (env : SendGridEnv)
    (provider : SendGridProvider) (now : String) : ToolRunResult :=
  if to_email == "" || !(to_email.data.contains '@') then
    ⟨"Error: Invalid recipient email address: " ++ to_email, false⟩
  else if subject == "" || pyStrip subject == "" then
    ⟨"Error: Email subject cannot be empty", false⟩
  else if html_content == "" || pyStrip html_content == "" then
    ⟨"Error: Email content cannot be empty", false⟩
  else if !(pyTruthyS env.api_key) then
    ⟨"Error: SENDGRID_API_KEY not found in environment variables", false⟩
  else if !(pyTruthyS (pyOr from_email env.from_email_env)) then
    ⟨"Error: SENDGRID_FROM_EMAIL not found in environment variables", false⟩
  else
    match provider with
    | .respond code body headers =>
      if code == 200 || code == 201 || code == 202 then
        ⟨"✅ Email sent successfully!\nStatus Code: " ++ toString code ++
          "\nRecipient: " ++ to_email ++ "\nSubject: " ++ subject ++
          "\nTimestamp: " ++ now ++
          "\nMessage: Email delivered to SendGrid for processing.", true⟩
      else
        ⟨"⚠️ Email sent but received unexpected status code.\nStatus Code: " ++
          toString code ++ "\nResponse Body: " ++ body ++
          "\nResponse Headers: " ++ headers, true⟩
    | .raises etype emsg =>
      ⟨"❌ Error sending email:\nError Type: " ++ etype ++
        "\nError Message: " ++ emsg ++ "\nRecipient: " ++ to_email ++
        "\nPlease check your SendGrid API key, sender authentication, " ++
        "and ensure the sender email is verified in SendGrid.", true⟩

/-- Twilio-related environment variables. -/
structure TwilioEnv where
  account_sid : Option String
  auth_token : Option String
  phone_number : Option String
  deriving Repr

/-- Behaviour of `client.messages.create`: a message object (SID and status),
or an exception. -/
inductive TwilioProvider where
  | message (sid : Option String) (status : String)
  | raises (etype emsg : String)
  deriving Repr

/-- Embedding of `TwilioSMSTool._run` from `tools/twilio_sms_tool.py` (lines 38–113):
input guards (including the 1600-character body cap at lines 62–63),
environment checks, then the provider call; every provider exception is
caught and rendered as the `❌` error string (the tool never raises).
The `from_phone` parameter is accepted but unused, as in the source (the body
reads `TWILIO_PHONE_NUMBER` from the environment instead). -/
def TwilioSMSTool_run (to_phone message_body : String)
    (from_phone : Option String) (env : TwilioEnv)
    (provider : TwilioProvider) (now : String) : ToolRunResult :=
  if to_phone == "" || to_phone.length < 10 then
    ⟨"Error: Invalid recipient phone number: " ++ to_phone, false⟩
  else if !(startsWithPlus to_phone) then
    ⟨"Error: Phone number must include country code (e.g., +91 for India): " ++
      to_phone, false⟩
  else if message_body == "" || pyStrip message_body == "" then
    ⟨"Error: SMS message cannot be empty", false⟩
  else if message_body.length > 1600 then
    ⟨"Error: Message too long (" ++ toString message_body.length ++
      " chars). Max 1600 characters allowed.", false⟩
  else if !(pyTruthyS env.account_sid) || !(pyTruthyS env.auth_token) then
    ⟨"Error: TWILIO_ACCOUNT_SID and TWILIO_AUTH_TOKEN not found in " ++
      "environment variables", false⟩
  else if !(pyTruthyS env.phone_number) then
    ⟨"Error: TWILIO_PHONE_NUMBER not found in environment variables", false⟩
  else
    match provider with
    | .message sid status =>
      if pyTruthyS sid then
        ⟨"✅ SMS sent successfully!\nMessage SID: " ++ sid.getD "" ++
          "\nStatus: " ++ status ++ "\nRecipient: " ++ to_phone ++
          "\nTimestamp: " ++ now ++
          "\nMessage: SMS delivered to Twilio for processing.", true⟩
      else
        ⟨"⚠️ SMS sent but no SID returned.\nStatus: " ++ status ++
          "\nRecipient: " ++ to_phone, true⟩
    | .raises etype emsg =>
      ⟨"❌ Error sending SMS:\nError Type: " ++ etype ++
        "\nError Message: " ++ emsg ++ "\nRecipient: " ++ to_phone ++
        "\nPlease check your Twilio credentials and phone number format.",
        true⟩

/-! ## `webhook_receiver/main.py` — orchestration run

`process_notifications_for_application` (lines 66–258) fetches the joined
application view, then, per owed channel, runs the corresponding crew in a
thread pool and — **whenever that invocation returns without raising** —
invokes the mark-sent mutation; an exception from the invocation is caught
(lines 203, 233) and the mark is skipped.  The effects model below covers the
eligibility/marking logic of lines 89–238.  Lines 117–186 only assemble the
rendering inputs handed to the external crew (an LLM agent pipeline), whose
eventual output is the free `KickoffResult` parameter per channel; the crew's
returned value is bound to `result` and never inspected by the orchestrator. -/

/-- The candidate block of the fetched application view that the SMS
destination resolution reads. -/
structure Candidate where
  first_name : String
  full_name : String
  email : String
  mobile : Option String
  work : Option String
  home : Option String
  deriving Repr

/-- The fetched application view (`app_data` in the source) restricted to the
fields the eligibility/marking logic reads. -/
structure AppData where
  candidate : Candidate
  application_id : Nat
  application_status : String
  email_sent : Bool
  sms_sent : Bool
  deriving Repr

/-- Outcome of one `crew().kickoff` invocation run in the thread pool: a
normal return carrying the crew's output string, or a raised exception. -/
inductive KickoffResult where
  | ok (output : String)
  | raises (msg : String)
  deriving DecidableEq, Repr

/-- Whether a kickoff invocation returned without raising. -/
def KickoffResult.isOk : KickoffResult → Bool
  | .ok _ => true
  | .raises _ => false

/-- Embedding of `candidate.get('candidate_mobile') or candidate.get('candidate_work') or
candidate.get('candidate_home') or ''` (main.py lines 104–109): first truthy
value in the fixed mobile → work → home order, else the empty string. -/
def candidate_mobile (c : Candidate) : String :=
  (pyOr c.mobile (pyOr c.work c.home)).getD ""

/-- Embedding of `formatted_phone` (main.py lines 112–114): empty unless a destination was
resolved, in which case `format_phone_number` is applied (its input is then
non-empty, so the Python `None` branch is unreachable and `getD ""` is only a
type-level totalisation). -/
def formatted_phone (c : Candidate) : String :=
  let cm := candidate_mobile c
  if cm ≠ "" then (format_phone_number cm "+1").getD "" else ""

/-- Observable effects of one orchestration run: per channel, whether the
crew send pipeline was invoked (`…Attempted`) and whether the mark-sent
mutation was invoked (`…Marked`). -/
structure RunEffects where
  emailAttempted : Bool
  emailMarked : Bool
  smsAttempted : Bool
  smsMarked : Bool
  deriving DecidableEq, Repr

/-- The eligibility/marking logic of `process_notifications_for_application`
(main.py lines 89–238), as a function of the fetched view (`none` models the
"not found or fully notified" early return at lines 89–91) and the two crew
invocation outcomes.  Email: attempted iff owed; marked iff the invocation
returned normally (lines 193–206).  SMS: skipped-and-marked without an attempt
when no destination resolves or the formatted number fails validation
(lines 211–217); otherwise attempted, and marked iff the invocation returned
normally (lines 223–236). -/
def process_notifications (app_data : Option AppData)
    (emailRun smsRun : KickoffResult) : RunEffects :=
  match app_data with
  | none => ⟨false, false, false, false⟩
  | some app =>
    let cm := candidate_mobile app.candidate
    let fp := formatted_phone app.candidate
    let emailEff : Bool × Bool :=
      if !app.email_sent then
        match emailRun with
        | .ok _ => (true, true)
        | .raises _ => (true, false)
      else (false, false)
    let smsEff : Bool × Bool :=
      if !app.sms_sent then
        if cm = "" then (false, true)
        else if !(validate_phone_number fp) then (false, true)
        else
          match smsRun with
          | .ok _ => (true, true)
          | .raises _ => (true, false)
      else (false, false)
    ⟨emailEff.1, emailEff.2, smsEff.1, smsEff.2⟩

/-! ## `webhook_receiver/main.py` — webhook handler -/

/-- The JSON body of the handler's response, restricted to the
discriminating fields (status string, reason, echoed identifiers / error
detail).  Timestamp and concurrency metadata of the 202 body are constants of
the environment and are not modelled. -/
inductive RespBody where
  | ignored (reason : String)
  | accepted (cand_id requirement_id : PyVal)
  | httpError (detail : String)
  deriving DecidableEq, Repr

/-- A handler result: HTTP status code, response body, and how many
orchestration tasks were scheduled (`asyncio.create_task` is fire-and-forget:
the handler returns without awaiting the spawned task). -/
structure HandlerResult where
  status : Nat
  body : RespBody
  tasksScheduled : Nat
  deriving DecidableEq, Repr

/-- Embedding of `if WEBHOOK_SECRET and x_webhook_secret != WEBHOOK_SECRET` (main.py
line 274): the request is rejected iff a secret is configured (truthy) and the
header does not equal it (a missing header is a mismatch). -/
def secretRejected (webhook_secret header_secret : Option String) : Bool :=
  pyTruthyS webhook_secret && !(header_secret == webhook_secret)

/-- Embedding of `webhook_handler` from `webhook_receiver/main.py` (lines 261–340):
secret check, structural validation, event-type and table filters, identifier
truthiness check, then task spawn + 202.  `HTTPException`s raised in the body
surface as their status codes. -/
def webhook_handler (webhook_secret header_secret : Option String)
    (p : Payload) : HandlerResult :=
  if secretRejected webhook_secret header_secret then
    ⟨401, .httpError "Invalid webhook secret", 0⟩
  else if !(validate_webhook_payload p) then
    ⟨400, .httpError "Invalid payload structure", 0⟩
  else if p.type_ ≠ some "INSERT" then
    ⟨200, .ignored ("Event type \x27" ++ (p.type_.getD "") ++
      "\x27 not processed"), 0⟩
  else if p.table ≠ some "job_application_tracking" then
    ⟨200, .ignored ("Table \x27" ++ (p.table.getD "") ++
      "\x27 not monitored"), 0⟩
  else
    let record := p.record.getD []
    match record.lookup "cand_id", record.lookup "requirement_id" with
    | some c, some r =>
      if !(pyTruthy c) || !(pyTruthy r) then
        ⟨400, .httpError "cand_id and requirement_id required", 0⟩
      else
        ⟨202, .accepted c r, 1⟩
    | _, _ =>
      ⟨400, .httpError "cand_id and requirement_id required", 0⟩

/-! ## Spec-side definitions (for the refinement-style claims) -/

/-- Spec-side resolver for C9, following the claim's words: the first
non-empty value among the listed optional fields, in order (an absent field
counts as empty). -/
def firstNonEmpty : List (Option String) → String
  | [] => ""
  | o :: rest =>
    match o with
    | some s => if s = "" then firstNonEmpty rest else s
    | none => firstNonEmpty rest

/-- Spec-side predicate for C8, following the claim's words: exactly the
strings consisting of `+` followed by 10 to 15 digits. -/
def specValidPhone (s : String) : Bool :=
  match s.data with
  | [] => false
  | c :: rest =>
    c == '+' && decide (10 ≤ rest.length) && decide (rest.length ≤ 15) &&
      rest.all Char.isDigit

/-- Amended predicate for C8: as `specValidPhone`, but additionally accepting
exactly one trailing newline after the digits — the extra strings admitted by
Python's `$` anchor in `re.match`. -/
def specValidPhoneAmended (s : String) : Bool :=
  specValidPhone s ||
    (match s.data.getLast? with
     | some c => c == '\n' && specValidPhone (String.mk s.data.dropLast)
     | none => false)

/-- The shape of both Channel Senders' caught-exception report: the outcome
string produced when the provider call raises (tools' `except` branches). -/
def senderReportedError (s : String) : Bool :=
  strStartsWith s "❌ Error sending"

/-! ## Concrete fixtures used by witnesses and counterexamples -/

/-- A candidate with a valid mobile number. -/
def sampleCandidate : Candidate :=
  ⟨"Ada", "Ada Lovelace", "cand@example.com", some "+15551234567", none, none⟩

/-- A fetched view with both channels still owed. -/
def sampleApp : AppData := ⟨sampleCandidate, 7, "applied", false, false⟩

/-- A candidate with no phone number in any of the three fields. -/
def phonelessCandidate : Candidate :=
  ⟨"Bob", "Bob Stone", "bob@example.com", none, some "", none⟩

/-- A fetched view for `phonelessCandidate`, SMS still owed. -/
def phonelessApp : AppData := ⟨phonelessCandidate, 8, "applied", true, false⟩

/-! ## Helper lemmas -/

theorem pyOr_falsy_left (a b : Option String) (h : pyTruthyS a = false) :
    pyOr a b = b := by
  cases a with
  | none => rfl
  | some s =>
    simp only [pyTruthyS, bne_eq_false_iff_eq] at h
    simp [pyOr, h]

theorem candidate_mobile_empty_of_falsy (c : Candidate)
    (hm : pyTruthyS c.mobile = false) (hw : pyTruthyS c.work = false)
    (hh : pyTruthyS c.home = false) : candidate_mobile c = "" := by
  unfold candidate_mobile
  rw [pyOr_falsy_left _ _ hm, pyOr_falsy_left _ _ hw]
  cases hc : c.home with
  | none => rfl
  | some s =>
    rw [hc] at hh
    simp only [pyTruthyS, bne_eq_false_iff_eq] at hh
    simp [hh]

/-! ## C7 — phone formatting -/

/-- C7: for every non-empty phone input, after removing all characters other
than digits and `+` (`keepDigitsPlus`), `format_phone_number` returns the
cleaned string with the configured default country code prepended when it
lacks a leading `+`, and returns it unchanged when it already starts with
`+`. -/
theorem c7_format_phone_number (phone dcc : String) (h : phone ≠ "") :
    (startsWithPlus (keepDigitsPlus phone) = false →
      format_phone_number phone dcc = some (dcc ++ keepDigitsPlus phone)) ∧
    (startsWithPlus (keepDigitsPlus phone) = true →
      format_phone_number phone dcc = some (keepDigitsPlus phone)) := by
  constructor <;> intro h2 <;> simp [format_phone_number, h, h2]

/-- Witness for C7 at the concrete input `"555-123-4567"` (no leading `+`,
noise characters removed, country code prepended). -/
theorem c7_witness :
    format_phone_number "555-123-4567" "+1" =
      some ("+1" ++ keepDigitsPlus "555-123-4567") :=
  (c7_format_phone_number "555-123-4567" "+1" (by decide)).1 (by decide)

/-! ## C9 — SMS destination priority -/

/-- C9: the SMS destination the orchestration run resolves
(`candidate_mobile`, main.py lines 104–109) is the first non-empty value among
the mobile, work and home fields in that fixed order — equal to the spec-side
`firstNonEmpty` resolver, whose recursion never consults a later field once an
earlier one is non-empty. -/
theorem c9_destination_first_nonempty (c : Candidate) :
    candidate_mobile c = firstNonEmpty [c.mobile, c.work, c.home] := by
  obtain ⟨f, n, e, m, w, h⟩ := c
  cases m <;> cases w <;> cases h <;>
    simp only [candidate_mobile, pyOr, firstNonEmpty] <;>
    (try split_ifs) <;> simp_all [firstNonEmpty]

/-! ## C6 — idempotent marks -/

/-- C6: marking a channel sent twice for the same application id is
mark-state equivalent to marking it once (the flags and the presence of each
timestamp — the spec's "idempotent, timestamped" — agree at every key), and
the second call reports success rather than an error.  Holds for
`mark_email_sent` and `mark_sms_sent` alike, including absent ids. -/
theorem c6_mark_sent_idempotent (db : MatchDb) (id t1 t2 : Nat) :
    ((mark_email_sent (mark_email_sent db id t1).1 id t2).2 = true ∧
      ∀ j, sentView ((mark_email_sent (mark_email_sent db id t1).1 id t2).1 j)
        = sentView ((mark_email_sent db id t1).1 j)) ∧
    ((mark_sms_sent (mark_sms_sent db id t1).1 id t2).2 = true ∧
      ∀ j, sentView ((mark_sms_sent (mark_sms_sent db id t1).1 id t2).1 j)
        = sentView ((mark_sms_sent db id t1).1 j)) := by
  refine ⟨⟨rfl, ?_⟩, ⟨rfl, ?_⟩⟩ <;> intro j <;>
    by_cases hj : j = id <;>
    simp [mark_email_sent, mark_sms_sent, sentView, hj] <;>
    cases db id <;> simp

/-! ## C3 — permanent SMS skips are marked without an attempt -/

/-- C3: in a run with `smsSent = false`, if no phone number is present in any
of the mobile/work/home fields, or the resolved number fails
`validate_phone_number` after formatting, the run invokes `mark_sms_sent`
(sent-equivalent) and never invokes the SMS send pipeline. -/
theorem c3_sms_skip_marked_without_attempt (app : AppData)
    (er sr : KickoffResult) (hsms : app.sms_sent = false)
    (h : (pyTruthyS app.candidate.mobile = false ∧
          pyTruthyS app.candidate.work = false ∧
          pyTruthyS app.candidate.home = false) ∨
         validate_phone_number (formatted_phone app.candidate) = false) :
    (process_notifications (some app) er sr).smsMarked = true ∧
    (process_notifications (some app) er sr).smsAttempted = false := by
  rcases h with ⟨hm, hw, hh⟩ | hv
  · have hcm := candidate_mobile_empty_of_falsy app.candidate hm hw hh
    simp [process_notifications, hsms, hcm]
  · by_cases hcm : candidate_mobile app.candidate = "" <;>
      simp [process_notifications, hsms, hcm, hv]

/-- Witness for C3 at `phonelessApp` (no phone in any field, SMS owed):
the run marks SMS sent and makes no SMS attempt. -/
theorem c3_witness :
    (process_notifications (some phonelessApp) (.ok "e") (.ok "s")).smsMarked
      = true ∧
    (process_notifications (some phonelessApp) (.ok "e") (.ok "s")).smsAttempted
      = false :=
  c3_sms_skip_marked_without_attempt phonelessApp (.ok "e") (.ok "s")
    (by decide) (Or.inl (by decide))

/-! ## C5 — channel independence -/

/-- C5: email and SMS are independent in a run where both are owed.  (i) The
email pipeline is invoked whatever the SMS outcome will be and whatever the
email outcome itself is (in particular after its own failure the run
continues); (ii) the SMS pipeline is invoked (on the attemptable path)
whatever the email outcome was — an email exception is caught and does not
prevent the SMS attempt; (iii) both partial terminal states — exactly one
channel marked — are produced by failure of one channel beside success of
the other. -/
theorem c5_channel_independence :
    (∀ (app : AppData) (er sr : KickoffResult), app.email_sent = false →
      (process_notifications (some app) er sr).emailAttempted = true) ∧
    (∀ (app : AppData) (er sr : KickoffResult), app.sms_sent = false →
      candidate_mobile app.candidate ≠ "" →
      validate_phone_number (formatted_phone app.candidate) = true →
      (process_notifications (some app) er sr).smsAttempted = true) ∧
    (∀ (app : AppData) (e s : String),
      app.email_sent = false → app.sms_sent = false →
      candidate_mobile app.candidate ≠ "" →
      validate_phone_number (formatted_phone app.candidate) = true →
      process_notifications (some app) (.raises e) (.ok s) =
        ⟨true, false, true, true⟩ ∧
      process_notifications (some app) (.ok s) (.raises e) =
        ⟨true, true, true, false⟩) := by
  refine ⟨?_, ?_, ?_⟩
  · intro app er sr he
    cases er <;> simp [process_notifications, he]
  · intro app er sr hs hcm hv
    cases sr <;> simp [process_notifications, hs, hcm, hv]
  · intro app e s he hs hcm hv
    constructor <;> simp [process_notifications, he, hs, hcm, hv]

/-- Witness for C5 at `sampleApp` (both channels owed, valid mobile):
both pipelines are invoked even when the email invocation raises, and the
run ends with SMS marked while email is left unmarked. -/
theorem c5_witness :
    RunEffects.emailAttempted
      (process_notifications (some sampleApp) (.raises "boom") (.ok "s")) = true ∧
    RunEffects.smsAttempted
      (process_notifications (some sampleApp) (.raises "boom") (.ok "s")) = true ∧
    process_notifications (some sampleApp) (.raises "boom") (.ok "s") =
      ⟨true, false, true, true⟩ :=
  ⟨(c5_channel_independence.1 sampleApp (.raises "boom") (.ok "s") rfl),
   (c5_channel_independence.2.1 sampleApp (.raises "boom") (.ok "s") rfl
      (by decide) (by decide)),
   ((c5_channel_independence.2.2 sampleApp "boom" "s" rfl rfl
      (by decide) (by decide)).1)⟩

/-! ## C2 — webhook accepts qualifying INSERTs, ignores other event types -/

/-- C2: once the secret check passes, a payload with `type = "INSERT"`,
`table = "job_application_tracking"` and both identifiers present with truthy
values (the handler's `record.get(...)`/falsiness test) is answered `202`
with both identifiers echoed and exactly one orchestration task scheduled
(spawned fire-and-forget, not awaited); a payload passing structural
validation with any other event type is answered
`200 {status: ignored, reason: "Event type '<t>' not processed"}` and no task
is scheduled. -/
theorem c2_webhook_insert_accepted_others_ignored :
    (∀ (ws hs : Option String) (p : Payload) (c r : PyVal),
      secretRejected ws hs = false →
      p.type_ = some "INSERT" →
      p.table = some "job_application_tracking" →
      (p.record.getD []).lookup "cand_id" = some c → pyTruthy c = true →
      (p.record.getD []).lookup "requirement_id" = some r → pyTruthy r = true →
      webhook_handler ws hs p = ⟨202, .accepted c r, 1⟩) ∧
    (∀ (ws hs : Option String) (p : Payload) (t : String),
      secretRejected ws hs = false →
      validate_webhook_payload p = true →
      p.type_ = some t → t ≠ "INSERT" →
      webhook_handler ws hs p =
        ⟨200, .ignored ("Event type \x27" ++ t ++ "\x27 not processed"), 0⟩) := by
  constructor
  · intro ws hs p c r hsec hty htb hc hcv hr hrv
    have hrec : p.record.isSome := by
      cases hpr : p.record with
      | none => rw [hpr] at hc; simp at hc
      | some fs => rfl
    have hval : validate_webhook_payload p = true := by
      simp [validate_webhook_payload, hty, htb, hrec, hc, hr]
    simp [webhook_handler, hsec, hval, hty, htb, hc, hr, hcv, hrv]
  · intro ws hs p t hsec hval hty hne
    simp [webhook_handler, hsec, hval, hty, hne]

/-- Witness for C2 at the spec's two scenarios: the qualifying INSERT with
`cand_id = 42`, `requirement_id = "R9"` and no secret configured is accepted
with one task scheduled; the same payload as an UPDATE is ignored with no
task. -/
theorem c2_witness :
    webhook_handler none none
      ⟨some "INSERT", some "job_application_tracking",
        some [("cand_id", .int 42), ("requirement_id", .str "R9")]⟩ =
      ⟨202, .accepted (.int 42) (.str "R9"), 1⟩ ∧
    webhook_handler none none
      ⟨some "UPDATE", some "job_application_tracking",
        some [("cand_id", .int 42), ("requirement_id", .str "R9")]⟩ =
      ⟨200, .ignored "Event type \x27UPDATE\x27 not processed", 0⟩ :=
  ⟨c2_webhook_insert_accepted_others_ignored.1 none none _ (.int 42) (.str "R9")
      rfl rfl rfl (by decide) (by decide) (by decide) (by decide),
   c2_webhook_insert_accepted_others_ignored.2 none none _ "UPDATE"
      rfl (by decide) rfl (by decide)⟩

/-! ## C10 — key presence is not sufficient: falsy identifiers are rejected -/

/-- C10: a qualifying INSERT payload whose record carries the `cand_id` or
`requirement_id` key with a falsy value (`0`, `""`, `null`) passes structural
validation (`validate_webhook_payload` checks key presence only) yet is
answered `400 "cand_id and requirement_id required"` with no orchestration
task scheduled. -/
theorem c10_falsy_identifier_rejected (ws hs : Option String) (p : Payload)
    (v w : PyVal) (hsec : secretRejected ws hs = false)
    (hty : p.type_ = some "INSERT")
    (htb : p.table = some "job_application_tracking")
    (hc : (p.record.getD []).lookup "cand_id" = some v)
    (hr : (p.record.getD []).lookup "requirement_id" = some w)
    (hfalsy : pyTruthy v = false ∨ pyTruthy w = false) :
    validate_webhook_payload p = true ∧
    webhook_handler ws hs p =
      ⟨400, .httpError "cand_id and requirement_id required", 0⟩ := by
  have hrec : p.record.isSome := by
    cases hpr : p.record with
    | none => rw [hpr] at hc; simp at hc
    | some fs => rfl
  have hval : validate_webhook_payload p = true := by
    simp [validate_webhook_payload, hty, htb, hrec, hc, hr]
  refine ⟨hval, ?_⟩
  rcases hfalsy with hfv | hfw
  · simp [webhook_handler, hsec, hval, hty, htb, hc, hr, hfv]
  · simp [webhook_handler, hsec, hval, hty, htb, hc, hr, hfw]

/-- Witness for C10 at the concrete record
`{cand_id: 0, requirement_id: "R9"}`: validation passes, response is 400,
no task is scheduled. -/
theorem c10_witness :
    validate_webhook_payload
      ⟨some "INSERT", some "job_application_tracking",
        some [("cand_id", .int 0), ("requirement_id", .str "R9")]⟩ = true ∧
    webhook_handler none none
      ⟨some "INSERT", some "job_application_tracking",
        some [("cand_id", .int 0), ("requirement_id", .str "R9")]⟩ =
      ⟨400, .httpError "cand_id and requirement_id required", 0⟩ :=
  c10_falsy_identifier_rejected none none _ (.int 0) (.str "R9")
    rfl rfl rfl (by decide) (by decide) (Or.inl (by decide))

/-! ## C4 — 1600-character SMS cap -/

/-- C4: for an SMS body longer than 1600 characters, (i) the Twilio provider
call is never reached — a run built on such a body never sends an SMS;
(ii) once the recipient/body guards pass, the Channel Sender's outcome is the
permanent-failure message `"Error: Message too long (… chars). …"`; (iii) the
orchestrator, receiving that outcome as a normal crew return, invokes
`mark_sms_sent`, so the channel is marked sent-equivalent. -/
theorem c4_sms_cap_no_send_and_marked :
    (∀ (to_phone message_body : String) (fp : Option String) (env : TwilioEnv)
        (prov : TwilioProvider) (now : String),
      1600 < message_body.length →
      (TwilioSMSTool_run to_phone message_body fp env prov now).providerInvoked
        = false) ∧
    (∀ (to_phone message_body : String) (fp : Option String) (env : TwilioEnv)
        (prov : TwilioProvider) (now : String),
      (to_phone == "" || to_phone.length < 10) = false →
      startsWithPlus to_phone = true →
      (message_body == "" || pyStrip message_body == "") = false →
      1600 < message_body.length →
      (TwilioSMSTool_run to_phone message_body fp env prov now).output =
        "Error: Message too long (" ++ toString message_body.length ++
          " chars). Max 1600 characters allowed.") ∧
    (∀ (app : AppData) (er : KickoffResult) (out : String),
      app.sms_sent = false →
      (process_notifications (some app) er (.ok out)).smsMarked = true) := by
  refine ⟨?_, ?_, ?_⟩
  · intro to_phone message_body fp env prov now h
    unfold TwilioSMSTool_run
    split_ifs <;> rfl
  · intro to_phone message_body fp env prov now h1 h2 h3 h4
    simp [TwilioSMSTool_run, h1, h2, h3, h4]
  · intro app er out hs
    unfold process_notifications
    simp only [hs]
    split_ifs <;> simp_all

/-- Witness for C4 at a concrete 1601-character body: the provider is not
invoked, the tool reports the too-long outcome, and the run (SMS owed) marks
SMS sent. -/
theorem c4_witness :
    (TwilioSMSTool_run "+1234567890" (String.mk (List.replicate 1601 'a'))
        none ⟨some "sid", some "tok", some "+10000000000"⟩
        (.message (some "SM1") "queued") "t").providerInvoked = false ∧
    (TwilioSMSTool_run "+1234567890" (String.mk (List.replicate 1601 'a'))
        none ⟨some "sid", some "tok", some "+10000000000"⟩
        (.message (some "SM1") "queued") "t").output =
      "Error: Message too long (" ++
        toString (String.mk (List.replicate 1601 'a')).length ++
        " chars). Max 1600 characters allowed." ∧
    RunEffects.smsMarked
      (process_notifications (some sampleApp) (.ok "e-ok")
        (.ok "Error: Message too long (1601 chars). Max 1600 characters allowed."))
      = true :=
  ⟨c4_sms_cap_no_send_and_marked.1 "+1234567890"
      (String.mk (List.replicate 1601 'a')) none
      ⟨some "sid", some "tok", some "+10000000000"⟩
      (.message (some "SM1") "queued") "t" (by decide),
   c4_sms_cap_no_send_and_marked.2.1 "+1234567890"
      (String.mk (List.replicate 1601 'a')) none
      ⟨some "sid", some "tok", some "+10000000000"⟩
      (.message (some "SM1") "queued") "t"
      (by decide) (by decide) (by decide) (by decide),
   c4_sms_cap_no_send_and_marked.2.2 sampleApp (.ok "e-ok")
      "Error: Message too long (1601 chars). Max 1600 characters allowed."
      rfl⟩

/-! ## C1 — transient sender-reported failures still get marked (corrected) -/

/-- C1 counterexample: a concrete run in which the email send attempt fails
from a transient cause — the provider raises `ConnectionError`, which the
SendGrid Channel Sender catches and reports as its `❌ Error sending email`
outcome (sendgrid_email_tool.py lines 112–121) — yet the orchestrator, seeing
only a normal crew return, still invokes `mark_email_sent`
(main.py lines 199–202): `emailMarked = true`, contradicting the claim that
the mark is not persisted for that channel in that run. -/
theorem c1_counterexample_transient_failure_still_marked :
    senderReportedError
      ((SendGridEmailTool_run "cand@example.com" "Job Match" "<p>hi</p>" none
          ⟨some "SG.key", some "noreply@example.com", none⟩
          (.raises "ConnectionError" "Network is unreachable") "t").output)
      = true ∧
    RunEffects.emailMarked
      (process_notifications (some sampleApp)
        (.ok ((SendGridEmailTool_run "cand@example.com" "Job Match" "<p>hi</p>"
            none ⟨some "SG.key", some "noreply@example.com", none⟩
            (.raises "ConnectionError" "Network is unreachable") "t").output))
        (.ok "sms-ok")) = true := by
  constructor <;> decide

/-- C1 amended: a channel's mark is persisted iff the crew invocation for
that channel returned without raising — the orchestrator never inspects the
returned outcome, and both Channel Senders catch every provider exception and
return an error string, so a transient provider/network failure reported by a
Channel Sender still leads to the mark; only an exception propagating out of
the crew invocation leaves the channel unmarked and owed for a future run. -/
theorem c1_amended_marked_iff_kickoff_returns (app : AppData)
    (er sr : KickoffResult) (he : app.email_sent = false)
    (hs : app.sms_sent = false)
    (hcm : candidate_mobile app.candidate ≠ "")
    (hv : validate_phone_number (formatted_phone app.candidate) = true) :
    (process_notifications (some app) er sr).emailMarked = er.isOk ∧
    (process_notifications (some app) er sr).smsMarked = sr.isOk := by
  cases er <;> cases sr <;>
    simp [process_notifications, KickoffResult.isOk, he, hs, hcm, hv]

/-- Witness for the amended C1 at `sampleApp`: an email invocation that
raises leaves email unmarked, while a normally returning SMS invocation is
marked. -/
theorem c1_amended_witness :
    RunEffects.emailMarked
      (process_notifications (some sampleApp) (.raises "boom") (.ok "s")) =
      KickoffResult.isOk (.raises "boom") ∧
    RunEffects.smsMarked
      (process_notifications (some sampleApp) (.raises "boom") (.ok "s")) =
      KickoffResult.isOk (.ok "s") :=
  c1_amended_marked_iff_kickoff_returns sampleApp (.raises "boom") (.ok "s")
    rfl rfl (by decide) (by decide)

/-! ## C8 — phone validation (corrected: Python `$` admits one trailing newline) -/

theorem getLast?_cons_concat {α : Type} (c : α) (l2 : List α) (a : α) :
    (c :: (l2 ++ [a])).getLast? = some a := by
  rw [← List.cons_append, List.getLast?_concat]

theorem dropLast_cons_concat {α : Type} (c : α) (l2 : List α) (a : α) :
    (c :: (l2 ++ [a])).dropLast = c :: l2 := by
  rw [← List.cons_append, List.dropLast_concat]

theorem all_isDigit_false_of_last_newline (l : List Char)
    (h : l.getLast? = some '\n') : l.all Char.isDigit = false := by
  rcases List.eq_nil_or_concat l with rfl | ⟨l2, a, rfl⟩
  · simp at h
  · rw [List.concat_eq_append, List.getLast?_concat] at h
    have ha : a = '\n' := by injection h
    subst ha
    simp [List.concat_eq_append, List.all_append]

/-- C8 counterexample: `validate_phone_number` accepts
`"+1234567890\n"` — eleven digits-and-plus followed by a newline — because
Python's `$` anchor in `re.match(r'^\+\d{10,15}$', …)` also matches just
before a single trailing newline; the claim's predicate (`specValidPhone`,
exactly `+` followed by 10–15 digits) rejects that string, so the two
functions are not equal, refuting the claim at this concrete input. -/
theorem c8_counterexample_trailing_newline :
    validate_phone_number "+1234567890\n" = true ∧
    specValidPhone "+1234567890\n" = false := by
  constructor <;> decide

/-- C8 amended: `validate_phone_number` returns true for exactly the strings
consisting of `+` followed by 10 to 15 digits *optionally followed by one
trailing newline* (the extra strings Python's `$` anchor admits), and false
for every other string. -/
theorem c8_amended_validate_eq_spec (s : String) :
    validate_phone_number s = specValidPhoneAmended s := by
  rcases s with ⟨l⟩
  cases l with
  | nil => rfl
  | cons c rest =>
    rcases List.eq_nil_or_concat rest with rfl | ⟨l2, a, rfl⟩
    · by_cases hc : c = '+'
      · subst hc; decide
      · have hc2 : (c == '+') = false := by simp [hc]
        simp [validate_phone_number, specValidPhoneAmended, specValidPhone,
          hc, hc2]
    · rw [List.concat_eq_append]
      by_cases hc : c = '+'
      · subst hc
        by_cases ha : a = '\n'
        · subst ha
          have hall := all_isDigit_false_of_last_newline (l2 ++ ['\n'])
            (by rw [List.getLast?_concat])
          simp [validate_phone_number, specValidPhoneAmended, specValidPhone,
            List.getLast?_concat, List.dropLast_concat, hall,
            getLast?_cons_concat, dropLast_cons_concat]
        · have ha2 : (a == '\n') = false := by simp [ha]
          simp [validate_phone_number, specValidPhoneAmended, specValidPhone,
            List.getLast?_concat, List.dropLast_concat, ha, ha2,
            getLast?_cons_concat, dropLast_cons_concat]
      · have hc2 : (c == '+') = false := by simp [hc]
        simp [validate_phone_number, specValidPhoneAmended, specValidPhone,
          List.getLast?_concat, List.dropLast_concat, hc, hc2,
          getLast?_cons_concat, dropLast_cons_concat]

end OutReach
